import Mathlib

/-
Verification of the byte-code interpreter in rust_src/src/bytecode.rs.

The embedding below is a shallow model of `exec_byte_code` and its helpers:
  * `LispObject` abstracts the tagged-value capability (atoms are identified
    by their tag/payload, which models identity (`eq`) equality on atoms;
    `cons` models heap cells; `mkList` models `lists::list`).
  * `Externals` packages the capabilities the interpreter calls out to
    (`funcall`, symbol value lookup, structural `equal`, hash-table lookup
    for Switch) as oracle functions.
  * Side effects on ambient interpreter state (`set_internal`, `specbind`,
    `unbind_to`, popping the handler list) are recorded as an event trace in
    the state, since the source performs them through FFI calls.
  * The operand stack is a `List LispObject` whose HEAD is the TOP of the
    stack, i.e. the reverse of the Rust `Vec` (which pushes at the end).
    The Rust `Vec` index `len - i` is therefore `get? (i - 1)` here.
  * Rust panics (slice out of bounds, `unwrap` on `None`, the wildcard
    `panic!` dispatch arm) become the `fatal` outcome.
  * The dispatch loop is run with explicit fuel; `spin` is the outcome of
    running out of fuel, which is how the embedding observes the source's
    infinite loops (a step that leaves the state unchanged spins forever).
-/

set_option maxRecDepth 100000
set_option maxHeartbeats 2000000

namespace Remacs

/-- Abstraction of the external tagged-value type. `ref` stands for any
datum identified only by its identity (address). -/
inductive LispObject where
  | nil
  | t
  | num (n : Int)
  | sym (name : String)
  | str (contents : String)
  | ref (id : Nat)
  | cons (car cdr : LispObject)
deriving DecidableEq, Repr

/-- Identity equality, as used by the `Eq` opcode (`v1.eq(v2)` in the source). -/
def LispObject.eq (a b : LispObject) : Bool := decide (a = b)

def LispObject.is_nil : LispObject → Bool
  | .nil => true
  | _ => false

def LispObject.is_not_nil (v : LispObject) : Bool := ! v.is_nil

def LispObject.is_symbol : LispObject → Bool
  | .nil => true
  | .t => true
  | .sym _ => true
  | _ => false

def LispObject.is_cons : LispObject → Bool
  | .cons _ _ => true
  | _ => false

def LispObject.is_string : LispObject → Bool
  | .str _ => true
  | _ => false

def LispObject.is_list : LispObject → Bool
  | .nil => true
  | .cons _ _ => true
  | _ => false

/-- `LispObject::from(bool)`: `true` becomes `Qt`, `false` becomes `Qnil`. -/
def boolToLisp (b : Bool) : LispObject := if b then .t else .nil

/-- Model of `lists::list`: build a proper list (a chain of conses) from a
slice of values. -/
def mkList (xs : List LispObject) : LispObject := xs.foldr LispObject.cons .nil

/-- The opcode table of the source (`enum OpCodes`), discriminants included
via `decodeOp`/`opcodeVal` below. -/
inductive OpCodes where
  | Stack_ref
  | Stack_ref1
  | Stack_ref2
  | Stack_ref3
  | Stack_ref4
  | Stack_ref5
  | Stack_ref6
  | Stack_ref7
  | Varref
  | Varref1
  | Varref2
  | Varref3
  | Varref4
  | Varref5
  | Varref6
  | Varref7
  | Varset
  | Varset1
  | Varset2
  | Varset3
  | Varset4
  | Varset5
  | Varset6
  | Varset7
  | Varbind
  | Varbind1
  | Varbind2
  | Varbind3
  | Varbind4
  | Varbind5
  | Varbind6
  | Varbind7
  | Call
  | Call1
  | Call2
  | Call3
  | Call4
  | Call5
  | Call6
  | Call7
  | Unbind
  | Unbind1
  | Unbind2
  | Unbind3
  | Unbind4
  | Unbind5
  | Unbind6
  | Unbind7
  | Pophandler
  | Pushconditioncase
  | Pushcatch
  | Nth
  | Symbolp
  | Consp
  | Stringp
  | Listp
  | Eq
  | Memq
  | Not
  | Car
  | Cdr
  | Cons
  | List1
  | List2
  | List3
  | List4
  | Length
  | Aref
  | Aset
  | Symbol_value
  | Symbol_function
  | Set
  | Fset
  | Get
  | Substring
  | Concat2
  | Concat3
  | Concat4
  | Sub1
  | Add1
  | Eqlsign
  | Gtr
  | Lss
  | Leq
  | Geq
  | Diff
  | Negate
  | Plus
  | Max
  | Min
  | Mult
  | Point
  | Save_current_buffer
  | Goto_char
  | Insert
  | Point_max
  | Point_min
  | Char_after
  | Following_char
  | Preceding_char
  | Current_column
  | Indent_to
  | Eolp
  | Eobp
  | Bolp
  | Bobp
  | Current_buffer
  | Set_buffer
  | Save_current_buffer_1
  | Interactive_p
  | Forward_char
  | Forward_word
  | Skip_chars_forward
  | Skip_chars_backward
  | Forward_line
  | CharSyntax
  | Buffer_substring
  | Delete_region
  | Narrow_to_region
  | Widen
  | End_of_line
  | Constant2
  | Goto
  | Gotoifnil
  | Gotoifnonnil
  | Gotoifnilelsepop
  | Gotoifnonnilelsepop
  | Return
  | Discard
  | Dup
  | Save_excursion
  | Save_window_excursion
  | Save_restriction
  | Catch
  | Unwind_protect
  | Condition_case
  | Temp_output_buffer_setup
  | Temp_output_buffer_show
  | Unbind_all
  | Set_marker
  | Match_beginning
  | Match_end
  | Upcase
  | Downcase
  | Stringeqlsign
  | Stringlss
  | Equal
  | Nthcdr
  | Elt
  | Member
  | Assq
  | Nreverse
  | Setcar
  | Setcdr
  | Car_safe
  | Cdr_safe
  | Nconc
  | Quo
  | Rem
  | Numberp
  | Integerp
  | RGoto
  | RGotoifnil
  | RGotoifnonnil
  | RGotoifnilelsepop
  | RGotoifnonnilelsepop
  | ListN
  | ConcatN
  | InsertN
  | Stack_set
  | Stack_set2
  | DiscardN
  | Switch
  | Constant
deriving DecidableEq, Repr

/-- `OpCodes::from_u8` (the `Primitive` derive): byte value to opcode.
The discriminants are written in octal exactly as in the source enum. -/
def decodeOp : Nat → Option OpCodes
  | 0o0 => some .Stack_ref
  | 0o1 => some .Stack_ref1
  | 0o2 => some .Stack_ref2
  | 0o3 => some .Stack_ref3
  | 0o4 => some .Stack_ref4
  | 0o5 => some .Stack_ref5
  | 0o6 => some .Stack_ref6
  | 0o7 => some .Stack_ref7
  | 0o10 => some .Varref
  | 0o11 => some .Varref1
  | 0o12 => some .Varref2
  | 0o13 => some .Varref3
  | 0o14 => some .Varref4
  | 0o15 => some .Varref5
  | 0o16 => some .Varref6
  | 0o17 => some .Varref7
  | 0o20 => some .Varset
  | 0o21 => some .Varset1
  | 0o22 => some .Varset2
  | 0o23 => some .Varset3
  | 0o24 => some .Varset4
  | 0o25 => some .Varset5
  | 0o26 => some .Varset6
  | 0o27 => some .Varset7
  | 0o30 => some .Varbind
  | 0o31 => some .Varbind1
  | 0o32 => some .Varbind2
  | 0o33 => some .Varbind3
  | 0o34 => some .Varbind4
  | 0o35 => some .Varbind5
  | 0o36 => some .Varbind6
  | 0o37 => some .Varbind7
  | 0o40 => some .Call
  | 0o41 => some .Call1
  | 0o42 => some .Call2
  | 0o43 => some .Call3
  | 0o44 => some .Call4
  | 0o45 => some .Call5
  | 0o46 => some .Call6
  | 0o47 => some .Call7
  | 0o50 => some .Unbind
  | 0o51 => some .Unbind1
  | 0o52 => some .Unbind2
  | 0o53 => some .Unbind3
  | 0o54 => some .Unbind4
  | 0o55 => some .Unbind5
  | 0o56 => some .Unbind6
  | 0o57 => some .Unbind7
  | 0o60 => some .Pophandler
  | 0o61 => some .Pushconditioncase
  | 0o62 => some .Pushcatch
  | 0o70 => some .Nth
  | 0o71 => some .Symbolp
  | 0o72 => some .Consp
  | 0o73 => some .Stringp
  | 0o74 => some .Listp
  | 0o75 => some .Eq
  | 0o76 => some .Memq
  | 0o77 => some .Not
  | 0o100 => some .Car
  | 0o101 => some .Cdr
  | 0o102 => some .Cons
  | 0o103 => some .List1
  | 0o104 => some .List2
  | 0o105 => some .List3
  | 0o106 => some .List4
  | 0o107 => some .Length
  | 0o110 => some .Aref
  | 0o111 => some .Aset
  | 0o112 => some .Symbol_value
  | 0o113 => some .Symbol_function
  | 0o114 => some .Set
  | 0o115 => some .Fset
  | 0o116 => some .Get
  | 0o117 => some .Substring
  | 0o120 => some .Concat2
  | 0o121 => some .Concat3
  | 0o122 => some .Concat4
  | 0o123 => some .Sub1
  | 0o124 => some .Add1
  | 0o125 => some .Eqlsign
  | 0o126 => some .Gtr
  | 0o127 => some .Lss
  | 0o130 => some .Leq
  | 0o131 => some .Geq
  | 0o132 => some .Diff
  | 0o133 => some .Negate
  | 0o134 => some .Plus
  | 0o135 => some .Max
  | 0o136 => some .Min
  | 0o137 => some .Mult
  | 0o140 => some .Point
  | 0o141 => some .Save_current_buffer
  | 0o142 => some .Goto_char
  | 0o143 => some .Insert
  | 0o144 => some .Point_max
  | 0o145 => some .Point_min
  | 0o146 => some .Char_after
  | 0o147 => some .Following_char
  | 0o150 => some .Preceding_char
  | 0o151 => some .Current_column
  | 0o152 => some .Indent_to
  | 0o154 => some .Eolp
  | 0o155 => some .Eobp
  | 0o156 => some .Bolp
  | 0o157 => some .Bobp
  | 0o160 => some .Current_buffer
  | 0o161 => some .Set_buffer
  | 0o162 => some .Save_current_buffer_1
  | 0o164 => some .Interactive_p
  | 0o165 => some .Forward_char
  | 0o166 => some .Forward_word
  | 0o167 => some .Skip_chars_forward
  | 0o170 => some .Skip_chars_backward
  | 0o171 => some .Forward_line
  | 0o172 => some .CharSyntax
  | 0o173 => some .Buffer_substring
  | 0o174 => some .Delete_region
  | 0o175 => some .Narrow_to_region
  | 0o176 => some .Widen
  | 0o177 => some .End_of_line
  | 0o201 => some .Constant2
  | 0o202 => some .Goto
  | 0o203 => some .Gotoifnil
  | 0o204 => some .Gotoifnonnil
  | 0o205 => some .Gotoifnilelsepop
  | 0o206 => some .Gotoifnonnilelsepop
  | 0o207 => some .Return
  | 0o210 => some .Discard
  | 0o211 => some .Dup
  | 0o212 => some .Save_excursion
  | 0o213 => some .Save_window_excursion
  | 0o214 => some .Save_restriction
  | 0o215 => some .Catch
  | 0o216 => some .Unwind_protect
  | 0o217 => some .Condition_case
  | 0o220 => some .Temp_output_buffer_setup
  | 0o221 => some .Temp_output_buffer_show
  | 0o222 => some .Unbind_all
  | 0o223 => some .Set_marker
  | 0o224 => some .Match_beginning
  | 0o225 => some .Match_end
  | 0o226 => some .Upcase
  | 0o227 => some .Downcase
  | 0o230 => some .Stringeqlsign
  | 0o231 => some .Stringlss
  | 0o232 => some .Equal
  | 0o233 => some .Nthcdr
  | 0o234 => some .Elt
  | 0o235 => some .Member
  | 0o236 => some .Assq
  | 0o237 => some .Nreverse
  | 0o240 => some .Setcar
  | 0o241 => some .Setcdr
  | 0o242 => some .Car_safe
  | 0o243 => some .Cdr_safe
  | 0o244 => some .Nconc
  | 0o245 => some .Quo
  | 0o246 => some .Rem
  | 0o247 => some .Numberp
  | 0o250 => some .Integerp
  | 0o252 => some .RGoto
  | 0o253 => some .RGotoifnil
  | 0o254 => some .RGotoifnonnil
  | 0o255 => some .RGotoifnilelsepop
  | 0o256 => some .RGotoifnonnilelsepop
  | 0o257 => some .ListN
  | 0o260 => some .ConcatN
  | 0o261 => some .InsertN
  | 0o262 => some .Stack_set
  | 0o263 => some .Stack_set2
  | 0o266 => some .DiscardN
  | 0o267 => some .Switch
  | 0o300 => some .Constant
  | _ => none

/-- The discriminant of each opcode (`OpCodes::X as u8`). -/
def opcodeVal : OpCodes → Nat
  | .Stack_ref => 0o0
  | .Stack_ref1 => 0o1
  | .Stack_ref2 => 0o2
  | .Stack_ref3 => 0o3
  | .Stack_ref4 => 0o4
  | .Stack_ref5 => 0o5
  | .Stack_ref6 => 0o6
  | .Stack_ref7 => 0o7
  | .Varref => 0o10
  | .Varref1 => 0o11
  | .Varref2 => 0o12
  | .Varref3 => 0o13
  | .Varref4 => 0o14
  | .Varref5 => 0o15
  | .Varref6 => 0o16
  | .Varref7 => 0o17
  | .Varset => 0o20
  | .Varset1 => 0o21
  | .Varset2 => 0o22
  | .Varset3 => 0o23
  | .Varset4 => 0o24
  | .Varset5 => 0o25
  | .Varset6 => 0o26
  | .Varset7 => 0o27
  | .Varbind => 0o30
  | .Varbind1 => 0o31
  | .Varbind2 => 0o32
  | .Varbind3 => 0o33
  | .Varbind4 => 0o34
  | .Varbind5 => 0o35
  | .Varbind6 => 0o36
  | .Varbind7 => 0o37
  | .Call => 0o40
  | .Call1 => 0o41
  | .Call2 => 0o42
  | .Call3 => 0o43
  | .Call4 => 0o44
  | .Call5 => 0o45
  | .Call6 => 0o46
  | .Call7 => 0o47
  | .Unbind => 0o50
  | .Unbind1 => 0o51
  | .Unbind2 => 0o52
  | .Unbind3 => 0o53
  | .Unbind4 => 0o54
  | .Unbind5 => 0o55
  | .Unbind6 => 0o56
  | .Unbind7 => 0o57
  | .Pophandler => 0o60
  | .Pushconditioncase => 0o61
  | .Pushcatch => 0o62
  | .Nth => 0o70
  | .Symbolp => 0o71
  | .Consp => 0o72
  | .Stringp => 0o73
  | .Listp => 0o74
  | .Eq => 0o75
  | .Memq => 0o76
  | .Not => 0o77
  | .Car => 0o100
  | .Cdr => 0o101
  | .Cons => 0o102
  | .List1 => 0o103
  | .List2 => 0o104
  | .List3 => 0o105
  | .List4 => 0o106
  | .Length => 0o107
  | .Aref => 0o110
  | .Aset => 0o111
  | .Symbol_value => 0o112
  | .Symbol_function => 0o113
  | .Set => 0o114
  | .Fset => 0o115
  | .Get => 0o116
  | .Substring => 0o117
  | .Concat2 => 0o120
  | .Concat3 => 0o121
  | .Concat4 => 0o122
  | .Sub1 => 0o123
  | .Add1 => 0o124
  | .Eqlsign => 0o125
  | .Gtr => 0o126
  | .Lss => 0o127
  | .Leq => 0o130
  | .Geq => 0o131
  | .Diff => 0o132
  | .Negate => 0o133
  | .Plus => 0o134
  | .Max => 0o135
  | .Min => 0o136
  | .Mult => 0o137
  | .Point => 0o140
  | .Save_current_buffer => 0o141
  | .Goto_char => 0o142
  | .Insert => 0o143
  | .Point_max => 0o144
  | .Point_min => 0o145
  | .Char_after => 0o146
  | .Following_char => 0o147
  | .Preceding_char => 0o150
  | .Current_column => 0o151
  | .Indent_to => 0o152
  | .Eolp => 0o154
  | .Eobp => 0o155
  | .Bolp => 0o156
  | .Bobp => 0o157
  | .Current_buffer => 0o160
  | .Set_buffer => 0o161
  | .Save_current_buffer_1 => 0o162
  | .Interactive_p => 0o164
  | .Forward_char => 0o165
  | .Forward_word => 0o166
  | .Skip_chars_forward => 0o167
  | .Skip_chars_backward => 0o170
  | .Forward_line => 0o171
  | .CharSyntax => 0o172
  | .Buffer_substring => 0o173
  | .Delete_region => 0o174
  | .Narrow_to_region => 0o175
  | .Widen => 0o176
  | .End_of_line => 0o177
  | .Constant2 => 0o201
  | .Goto => 0o202
  | .Gotoifnil => 0o203
  | .Gotoifnonnil => 0o204
  | .Gotoifnilelsepop => 0o205
  | .Gotoifnonnilelsepop => 0o206
  | .Return => 0o207
  | .Discard => 0o210
  | .Dup => 0o211
  | .Save_excursion => 0o212
  | .Save_window_excursion => 0o213
  | .Save_restriction => 0o214
  | .Catch => 0o215
  | .Unwind_protect => 0o216
  | .Condition_case => 0o217
  | .Temp_output_buffer_setup => 0o220
  | .Temp_output_buffer_show => 0o221
  | .Unbind_all => 0o222
  | .Set_marker => 0o223
  | .Match_beginning => 0o224
  | .Match_end => 0o225
  | .Upcase => 0o226
  | .Downcase => 0o227
  | .Stringeqlsign => 0o230
  | .Stringlss => 0o231
  | .Equal => 0o232
  | .Nthcdr => 0o233
  | .Elt => 0o234
  | .Member => 0o235
  | .Assq => 0o236
  | .Nreverse => 0o237
  | .Setcar => 0o240
  | .Setcdr => 0o241
  | .Car_safe => 0o242
  | .Cdr_safe => 0o243
  | .Nconc => 0o244
  | .Quo => 0o245
  | .Rem => 0o246
  | .Numberp => 0o247
  | .Integerp => 0o250
  | .RGoto => 0o252
  | .RGotoifnil => 0o253
  | .RGotoifnonnil => 0o254
  | .RGotoifnilelsepop => 0o255
  | .RGotoifnonnilelsepop => 0o256
  | .ListN => 0o257
  | .ConcatN => 0o260
  | .InsertN => 0o261
  | .Stack_set => 0o262
  | .Stack_set2 => 0o263
  | .DiscardN => 0o266
  | .Switch => 0o267
  | .Constant => 0o300

/-- Ambient-state effects the interpreter performs through FFI calls,
recorded as a trace. -/
inductive VMEvent where
  | set_internal (symv x : LispObject)
  | specbind (symv x : LispObject)
  | unbind_to (n : Nat)
  | pophandler
deriving DecidableEq, Repr

/-- The mutable state of one iteration of the dispatch loop: the operand
stack (HEAD = top, reverse of the Rust `Vec`), the program counter, and the
trace of ambient effects. -/
structure VMState where
  stack : List LispObject
  pc : Nat
  events : List VMEvent
deriving DecidableEq, Repr

/-- A byte-code object: the byte string and the constant vector. -/
structure VMCode where
  bytecode : List Nat
  constants : List LispObject
deriving DecidableEq, Repr

/-- External capabilities consumed by the interpreter, as oracles:
`funcall` (eval::funcall, receives the slice `[procedure, args..]` in
bottom-to-top order), `find_value` (symbol dynamic-value lookup),
`equalFn` (structural equality), `switch_lookup` (hash-table lookup for
`Switch`, returning the stored target pc when the key is found). -/
structure Externals where
  funcall : List LispObject → LispObject
  find_value : LispObject → LispObject
  equalFn : LispObject → LispObject → Bool
  switch_lookup : LispObject → LispObject → Option Nat

/-- Reasons the interpreter aborts by a Rust panic. -/
inductive VMErr where
  | unimplemented (op : Nat)
  | stackUnderflow
  | fetchOOB
  | constOOB
  | notSymbol
deriving DecidableEq, Repr

/-- Result of one iteration of the dispatch loop. -/
inductive StepResult where
  | next (s : VMState)
  | ret (v : LispObject)
  | fatal (e : VMErr)
deriving DecidableEq, Repr

/-- `Stack_ref1..5/6/7`: push `operandStack[operandStack.len() - i]`, i.e.
the element `i - 1` slots below the top; `i = 0` or `i >` depth is an
out-of-range `Vec` index (a panic). `adv` is the pc advance (1, 2 or 3). -/
def stackRefStep (s : VMState) (i adv : Nat) : StepResult :=
  if i = 0 then .fatal .stackUnderflow
  else
    match s.stack.get? (i - 1) with
    | some v => .next ⟨v :: s.stack, s.pc + adv, s.events⟩
    | none => .fatal .stackUnderflow

/-- `Varref` family: `constantVector.get(i).as_symbol().unwrap().find_value()`
pushed onto the stack. -/
def varrefStep (ext : Externals) (c : VMCode) (s : VMState) (i adv : Nat) : StepResult :=
  match c.constants.get? i with
  | none => .fatal .constOOB
  | some cv =>
    if cv.is_symbol then .next ⟨ext.find_value cv :: s.stack, s.pc + adv, s.events⟩
    else .fatal .notSymbol

/-- `Varset` family: pop `x`, then `set_internal(constants[i], x, Qnil, SET)`. -/
def varsetStep (c : VMCode) (s : VMState) (i adv : Nat) : StepResult :=
  match s.stack with
  | [] => .fatal .stackUnderflow
  | x :: rest =>
    match c.constants.get? i with
    | none => .fatal .constOOB
    | some v1 => .next ⟨rest, s.pc + adv, s.events ++ [.set_internal v1 x]⟩

/-- `Varbind` family: pop `x`, then `specbind(constants[i], x)`. -/
def varbindStep (c : VMCode) (s : VMState) (i adv : Nat) : StepResult :=
  match s.stack with
  | [] => .fatal .stackUnderflow
  | x :: rest =>
    match c.constants.get? i with
    | none => .fatal .constOOB
    | some v1 => .next ⟨rest, s.pc + adv, s.events ++ [.specbind v1 x]⟩

/-- `Unbind` family: `unbind_to(c_specpdl_index() - i, Qnil)`; no operand
stack effect. -/
def unbindStep (s : VMState) (i adv : Nat) : StepResult :=
  .next ⟨s.stack, s.pc + adv, s.events ++ [.unbind_to i]⟩

/-- `Call` family: `funcall(&mut operandStack[len - (argCount + 1)..])`,
then pop the `argCount + 1` operands and push the result. The slice
`[len - (n+1)..]` is the top `n + 1` operands in bottom-to-top order,
i.e. `(take (n+1)).reverse` of the top-first stack; `len - (n+1)`
underflows (a panic) when the stack is shallower than `n + 1`. -/
def callStep (ext : Externals) (s : VMState) (n adv : Nat) : StepResult :=
  if n + 1 ≤ s.stack.length then
    .next ⟨ext.funcall ((s.stack.take (n + 1)).reverse) :: s.stack.drop (n + 1),
           s.pc + adv, s.events⟩
  else .fatal .stackUnderflow

/-- `Constant`/`Constant2` and the high constant-push range: push
`constantVector.get(i)`. -/
def constantStep (c : VMCode) (s : VMState) (i adv : Nat) : StepResult :=
  match c.constants.get? i with
  | some v => .next ⟨v :: s.stack, s.pc + adv, s.events⟩
  | none => .fatal .constOOB

/-- The predicate opcodes: pop one operand, push `Qt` or `Qnil`. -/
def predStep (s : VMState) (p : LispObject → Bool) : StepResult :=
  match s.stack with
  | v :: rest => .next ⟨(if p v then .t else .nil) :: rest, s.pc + 1, s.events⟩
  | [] => .fatal .stackUnderflow

/-- The `None` branch of the dispatch `match`: `OpCodes::Constant` is
implemented here as a special case — a byte in
`[Constant, Constant + constants.len())` pushes the constant at index
`op - Constant`; for any other byte NO arm applies and the loop body falls
through with the whole state, pc included, unchanged. -/
def unknownStep (c : VMCode) (s : VMState) (op : Nat) : StepResult :=
  if 0o300 ≤ op ∧ op < 0o300 + c.constants.length then
    constantStep c s (op - 0o300) 1
  else
    .next s

/-- The `Some(opcode)` branches of the dispatch `match`, arm for arm as in
the source, including the empty arms (`Pushconditioncase`, `Pushcatch`,
`Elt`) that leave the state (pc included) unchanged and the final wildcard
arm that panics with the opcode value. -/
def execInstr (ext : Externals) (c : VMCode) (s : VMState) (op : Nat) :
    OpCodes → StepResult
      | .Stack_ref1 | .Stack_ref2 | .Stack_ref3 | .Stack_ref4 | .Stack_ref5 =>
        stackRefStep s (op - 0o0) 1
      | .Stack_ref6 =>
        match c.bytecode.get? (s.pc + 1) with
        | some i => stackRefStep s i 2
        | none => .fatal .fetchOOB
      | .Stack_ref7 =>
        match c.bytecode.get? (s.pc + 1), c.bytecode.get? (s.pc + 2) with
        | some lo, some hi => stackRefStep s (lo + (hi <<< 8)) 3
        | _, _ => .fatal .fetchOOB
      | .Varref | .Varref1 | .Varref2 | .Varref3 | .Varref4 | .Varref5 =>
        varrefStep ext c s (op - 0o10) 1
      | .Varref6 =>
        match c.bytecode.get? (s.pc + 1) with
        | some i => varrefStep ext c s i 2
        | none => .fatal .fetchOOB
      | .Varref7 =>
        match c.bytecode.get? (s.pc + 1), c.bytecode.get? (s.pc + 2) with
        | some lo, some hi => varrefStep ext c s (lo + (hi <<< 8)) 3
        | _, _ => .fatal .fetchOOB
      | .Varset | .Varset1 | .Varset2 | .Varset3 | .Varset4 | .Varset5 =>
        varsetStep c s (op - 0o20) 1
      | .Varset6 =>
        match c.bytecode.get? (s.pc + 1) with
        | some i => varsetStep c s i 2
        | none => .fatal .fetchOOB
      | .Varset7 =>
        match c.bytecode.get? (s.pc + 1), c.bytecode.get? (s.pc + 2) with
        | some lo, some hi => varsetStep c s (lo + (hi <<< 8)) 3
        | _, _ => .fatal .fetchOOB
      | .Varbind | .Varbind1 | .Varbind2 | .Varbind3 | .Varbind4 | .Varbind5 =>
        varbindStep c s (op - 0o30) 1
      | .Varbind6 =>
        match c.bytecode.get? (s.pc + 1) with
        | some i => varbindStep c s i 2
        | none => .fatal .fetchOOB
      | .Varbind7 =>
        match c.bytecode.get? (s.pc + 1), c.bytecode.get? (s.pc + 2) with
        | some lo, some hi => varbindStep c s (lo + (hi <<< 8)) 3
        | _, _ => .fatal .fetchOOB
      | .Call | .Call1 | .Call2 | .Call3 | .Call4 | .Call5 =>
        callStep ext s (op - 0o40) 1
      | .Call6 =>
        match c.bytecode.get? (s.pc + 1) with
        | some n => callStep ext s n 2
        | none => .fatal .fetchOOB
      | .Call7 =>
        match c.bytecode.get? (s.pc + 1), c.bytecode.get? (s.pc + 2) with
        | some lo, some hi => callStep ext s (lo + (hi <<< 8)) 3
        | _, _ => .fatal .fetchOOB
      | .Unbind | .Unbind1 | .Unbind2 | .Unbind3 | .Unbind4 | .Unbind5 =>
        unbindStep s (op - 0o50) 1
      | .Unbind6 =>
        match c.bytecode.get? (s.pc + 1) with
        | some i => unbindStep s i 2
        | none => .fatal .fetchOOB
      | .Unbind7 =>
        match c.bytecode.get? (s.pc + 1), c.bytecode.get? (s.pc + 2) with
        | some lo, some hi => unbindStep s (lo + (hi <<< 8)) 3
        | _, _ => .fatal .fetchOOB
      | .Constant =>
        constantStep c s (op - 0o300) 1
      | .Constant2 =>
        match c.bytecode.get? (s.pc + 1), c.bytecode.get? (s.pc + 2) with
        | some lo, some hi => constantStep c s (lo + (hi <<< 8)) 3
        | _, _ => .fatal .fetchOOB
      | .Pophandler =>
        .next ⟨s.stack, s.pc + 1, s.events ++ [.pophandler]⟩
      | .Pushconditioncase =>
        -- The entire arm in the source is commented out: no state change.
        .next s
      | .Pushcatch =>
        -- Empty arm in the source: no state change.
        .next s
      | .Goto =>
        match c.bytecode.get? (s.pc + 1), c.bytecode.get? (s.pc + 2) with
        | some lo, some hi => .next ⟨s.stack, lo + (hi <<< 8), s.events⟩
        | _, _ => .fatal .fetchOOB
      | .Gotoifnil =>
        match c.bytecode.get? (s.pc + 1), c.bytecode.get? (s.pc + 2) with
        | some lo, some hi =>
          match s.stack with
          | v :: rest =>
            if v.is_nil then .next ⟨rest, lo + (hi <<< 8), s.events⟩
            else .next ⟨rest, s.pc + 3, s.events⟩
          | [] => .fatal .stackUnderflow
        | _, _ => .fatal .fetchOOB
      | .Gotoifnonnil =>
        match c.bytecode.get? (s.pc + 1), c.bytecode.get? (s.pc + 2) with
        | some lo, some hi =>
          match s.stack with
          | v :: rest =>
            if v.is_not_nil then .next ⟨rest, lo + (hi <<< 8), s.events⟩
            else .next ⟨rest, s.pc + 3, s.events⟩
          | [] => .fatal .stackUnderflow
        | _, _ => .fatal .fetchOOB
      | .Gotoifnilelsepop =>
        match c.bytecode.get? (s.pc + 1), c.bytecode.get? (s.pc + 2) with
        | some lo, some hi =>
          match s.stack with
          | v :: rest =>
            -- Peek (no pop) when the branch is taken; pop and fall through otherwise.
            if v.is_nil then .next ⟨v :: rest, lo + (hi <<< 8), s.events⟩
            else .next ⟨rest, s.pc + 3, s.events⟩
          | [] => .fatal .stackUnderflow
        | _, _ => .fatal .fetchOOB
      | .Gotoifnonnilelsepop =>
        match c.bytecode.get? (s.pc + 1), c.bytecode.get? (s.pc + 2) with
        | some lo, some hi =>
          match s.stack with
          | v :: rest =>
            if v.is_not_nil then .next ⟨v :: rest, lo + (hi <<< 8), s.events⟩
            else .next ⟨rest, s.pc + 3, s.events⟩
          | [] => .fatal .stackUnderflow
        | _, _ => .fatal .fetchOOB
      | .Switch =>
        match s.stack with
        | ht :: key :: rest =>
          match ext.switch_lookup ht key with
          | none => .next ⟨rest, s.pc + 1, s.events⟩
          | some i => .next ⟨rest, i, s.events⟩
        | _ => .fatal .stackUnderflow
      | .Listp => predStep s LispObject.is_list
      | .Symbolp => predStep s LispObject.is_symbol
      | .Consp => predStep s LispObject.is_cons
      | .Stringp => predStep s LispObject.is_string
      | .Eq =>
        match s.stack with
        | v1 :: v2 :: rest =>
          .next ⟨boolToLisp (v1.eq v2) :: rest, s.pc + 1, s.events⟩
        | _ => .fatal .stackUnderflow
      | .Equal =>
        match s.stack with
        | v1 :: v2 :: rest =>
          .next ⟨boolToLisp (ext.equalFn v1 v2) :: rest, s.pc + 1, s.events⟩
        | _ => .fatal .stackUnderflow
      | .Elt =>
        -- Empty arm in the source: no state change.
        .next s
      | .Return =>
        match s.stack with
        | v :: _ => .ret v
        | [] => .fatal .stackUnderflow
      | .Dup =>
        match s.stack with
        | v :: rest => .next ⟨v :: v :: rest, s.pc + 1, s.events⟩
        | [] => .fatal .stackUnderflow
      | _ =>
        -- panic!(format!("Unimplemented: \x7b\x7d", op))
        .fatal (.unimplemented op)

/-- One iteration of the dispatch loop of `exec_byte_code`: fetch
`bytecode[pc]`, decode it with `OpCodes::from_u8`, and execute the
matching arm (`execInstr`), or the `None` branch (`unknownStep`) when the
byte decodes to no table entry. -/
def step (ext : Externals) (c : VMCode) (s : VMState) : StepResult :=
  match c.bytecode.get? s.pc with
  | none => .fatal .fetchOOB
  | some op =>
    match decodeOp op with
    | none => unknownStep c s op
    | some opcode => execInstr ext c s op opcode

/-- Fetching a byte that decodes to a known opcode dispatches to that
opcode's arm. -/
theorem step_known (ext : Externals) (c : VMCode) (s : VMState) (op : Nat)
    (oc : OpCodes) (hfetch : c.bytecode.get? s.pc = some op)
    (hdec : decodeOp op = some oc) :
    step ext c s = execInstr ext c s op oc := by
  simp only [step, hfetch, hdec]

/-- Whether an opcode's handler is the final wildcard arm of the dispatch
`match` (the arm that panics with the opcode value). The listed
constructors are exactly the ones named by some non-wildcard arm. -/
def wildcardOp : OpCodes → Bool
  | .Stack_ref1 | .Stack_ref2 | .Stack_ref3 | .Stack_ref4 | .Stack_ref5
  | .Stack_ref6 | .Stack_ref7
  | .Varref | .Varref1 | .Varref2 | .Varref3 | .Varref4 | .Varref5
  | .Varref6 | .Varref7
  | .Varset | .Varset1 | .Varset2 | .Varset3 | .Varset4 | .Varset5
  | .Varset6 | .Varset7
  | .Varbind | .Varbind1 | .Varbind2 | .Varbind3 | .Varbind4 | .Varbind5
  | .Varbind6 | .Varbind7
  | .Call | .Call1 | .Call2 | .Call3 | .Call4 | .Call5 | .Call6 | .Call7
  | .Unbind | .Unbind1 | .Unbind2 | .Unbind3 | .Unbind4 | .Unbind5
  | .Unbind6 | .Unbind7
  | .Constant | .Constant2
  | .Pophandler | .Pushconditioncase | .Pushcatch
  | .Goto | .Gotoifnil | .Gotoifnonnil | .Gotoifnilelsepop | .Gotoifnonnilelsepop
  | .Switch
  | .Listp | .Symbolp | .Consp | .Stringp
  | .Eq | .Equal | .Elt
  | .Return | .Dup => false
  | _ => true

/-- Outcome of running the dispatch loop (with fuel) or of a whole
invocation: a returned value, a recoverable signal raised by the argument
binder, a fatal panic, or fuel exhaustion (`spin` carries the state at
exhaustion; a state the loop never leaves spins at that very state). -/
inductive RunResult where
  | ret (v : LispObject)
  | signaled (mandatory nonrest nargs : Nat)
  | fatal (e : VMErr)
  | spin (s : VMState)
deriving DecidableEq, Repr

/-- The fetch-decode-execute loop, fuelled. -/
def exec (ext : Externals) (c : VMCode) : Nat → VMState → RunResult
  | 0, s => .spin s
  | Nat.succ fuel, s =>
    match step ext c s with
    | .next s2 => exec ext c fuel s2
    | .ret v => .ret v
    | .fatal e => .fatal e

/-- The placeholder upper bound the source uses for `maxargs` when the
template has a rest argument. -/
def LARGE_NUMBER_MEANT_TO_BE_AS_LARGE_AS_PTRDIFF_MAX : Nat := 99999999

/-- Result of the argument-binder block of `exec_byte_code`: the initial
operand stack (top-first), or the `xsignal2(Qwrong_number_of_arguments,
Fcons(mandatory, nonrest), nargs)` signal. -/
inductive BindResult where
  | bound (stack : List LispObject)
  | arity_error (mandatory nonrest nargs : Nat)
deriving DecidableEq, Repr

/-- The argument-binder block: executed only when `args_template` is
non-nil; decodes the packed template, performs the arity check, pushes
`min(nonrest, nargs)` arguments in order and, when `nonrest < nargs`, one
list of the remaining arguments. When the template is nil the block is
skipped entirely and the operand stack starts empty. -/
def bindArgs (args_template : Option Nat) (args : List LispObject) : BindResult :=
  match args_template with
  | none => .bound []
  | some tmpl =>
    let nargs := args.length
    let rest : Nat := if tmpl &&& 128 ≠ 0 then 1 else 0
    let mandatory := tmpl &&& 127
    let nonrest := tmpl >>> 8
    let maxargs := if rest = 1 then LARGE_NUMBER_MEANT_TO_BE_AS_LARGE_AS_PTRDIFF_MAX
                   else nonrest
    if mandatory ≤ nargs ∧ nargs ≤ maxargs then
      let pushedargs := if nonrest < nargs then nonrest else nargs
      let positional := (args.take pushedargs).reverse
      if nonrest < nargs then .bound (mkList (args.drop pushedargs) :: positional)
      else .bound positional
    else
      .arity_error mandatory nonrest nargs

/-- The Rust `exec_byte_code` entry point: bind the arguments (or signal),
then run the dispatch loop from `pc = 0`. `maxdepth` is consumed only by
`Vec::with_capacity` in the source and has no semantic effect. -/
def exec_byte_code (ext : Externals) (bytestr : List Nat) (vector : List LispObject)
    (maxdepth : Nat) (args_template : Option Nat) (args : List LispObject)
    (fuel : Nat) : RunResult :=
  let _ := maxdepth
  match bindArgs args_template args with
  | .arity_error m nr na => .signaled m nr na
  | .bound stk => exec ext ⟨bytestr, vector⟩ fuel ⟨stk, 0, []⟩

/-- A concrete instantiation of the external capabilities, used to evaluate
the model on closed inputs: `funcall` returns the list of its inputs so the
call protocol is observable. -/
def ext0 : Externals where
  funcall := fun xs => mkList xs
  find_value := fun _ => .nil
  equalFn := fun a b => a.eq b
  switch_lookup := fun _ _ => none

/-- A state the dispatch loop never leaves (one iteration returns the very
same state) makes `exec` spin for every amount of fuel: the loop runs
forever. -/
theorem spin_forever (ext : Externals) (c : VMCode) (s : VMState)
    (h : step ext c s = .next s) : ∀ fuel, exec ext c fuel s = .spin s := by
  intro fuel
  induction fuel with
  | zero => rfl
  | succ n ih =>
    simp only [exec, h]
    exact ih

/-- C1: evaluation of the Argument Binder. The four concrete scenarios of
the claim (template mandatory=1, nonrest=2, has_rest=false, packed as 513)
behave exactly as stated: args [A,B] bind the stack with A below B and no
rest list, args [A] bind [A], args [] signal the arity error (1,2,0), args
[A,B,C] signal (1,2,3). The final conjunct is the failing input of the
claim's universal part: with has_rest (template 128, mandatory=0,
nonrest=0) and 100000000 arguments the code signals the arity error
(0,0,100000000), because `maxargs` is the placeholder constant 99999999
rather than the unbounded maximum the claim (and the constant's own name)
intend. -/
theorem C1_argument_binder_eval :
    bindArgs (some 513) [.ref 0, .ref 1] = .bound [.ref 1, .ref 0]
  ∧ bindArgs (some 513) [.ref 0] = .bound [.ref 0]
  ∧ bindArgs (some 513) [] = .arity_error 1 2 0
  ∧ bindArgs (some 513) [.ref 0, .ref 1, .ref 2] = .arity_error 1 2 3
  ∧ bindArgs (some 128) (List.replicate 100000000 .nil) =
      .arity_error 0 0 100000000 := by
  refine ⟨rfl, rfl, rfl, rfl, ?_⟩
  have h : (List.replicate 100000000 LispObject.nil).length = 100000000 :=
    List.length_replicate _ _
  simp only [bindArgs]
  rw [h]
  rfl

/-- C2: a byte that is neither a known opcode nor inside the populated
constant-push range is NOT reported as a fatal decoding error: the loop
body falls through with the program counter unchanged, so the interpreter
re-fetches the same byte forever. Byte 51 (octal 0o63) has no opcode and
lies below the constant range; the state is returned unchanged and the
loop spins for every amount of fuel. -/
theorem C2_unknown_opcode_spins :
    decodeOp 51 = none
  ∧ step ext0 ⟨[51], []⟩ ⟨[], 0, []⟩ = .next ⟨[], 0, []⟩
  ∧ ∀ fuel, exec ext0 ⟨[51], []⟩ fuel ⟨[], 0, []⟩ = .spin ⟨[], 0, []⟩ :=
  ⟨rfl, rfl, spin_forever _ _ _ rfl⟩

/-- C3: evaluation of stack-ref. With the operand stack holding A below B
(B on top), the instruction stack-ref[1] (byte 1) pushes B — the top
itself, i.e. the element N-1 = 0 slots below the top — where the claim
says N = 1 slots below the top, i.e. A; the third conjunct records that
the two outcomes differ. The base opcode stack-ref[0] (byte 0) is not
handled at all: it falls through to the wildcard arm and panics instead of
duplicating the top. -/
theorem C3_stack_ref_eval :
    step ext0 ⟨[1], []⟩ ⟨[.ref 11, .ref 10], 0, []⟩ =
      .next ⟨[.ref 11, .ref 11, .ref 10], 1, []⟩
  ∧ step ext0 ⟨[0], []⟩ ⟨[.ref 11, .ref 10], 0, []⟩ = .fatal (.unimplemented 0)
  ∧ [LispObject.ref 11, .ref 11, .ref 10] ≠ [LispObject.ref 10, .ref 11, .ref 10] :=
  ⟨rfl, rfl, by decide⟩

/-- C4: the Pushcatch and Pushconditioncase arms of the dispatch match are
empty stubs: executing either pops nothing, reads no offset, records no
handler frame (the interpreter state has no handler stack at all), and
does not even advance the program counter, so the loop spins forever on
the instruction. Here each is given a tag operand on the stack and a
2-byte offset in the byte string, none of which is consumed. -/
theorem C4_pushcatch_stub_spins :
    step ext0 ⟨[50, 5, 0], []⟩ ⟨[.ref 7], 0, []⟩ = .next ⟨[.ref 7], 0, []⟩
  ∧ (∀ fuel, exec ext0 ⟨[50, 5, 0], []⟩ fuel ⟨[.ref 7], 0, []⟩ = .spin ⟨[.ref 7], 0, []⟩)
  ∧ step ext0 ⟨[49, 5, 0], []⟩ ⟨[.ref 7], 0, []⟩ = .next ⟨[.ref 7], 0, []⟩
  ∧ (∀ fuel, exec ext0 ⟨[49, 5, 0], []⟩ fuel ⟨[.ref 7], 0, []⟩ = .spin ⟨[.ref 7], 0, []⟩) :=
  ⟨rfl, spin_forever _ _ _ rfl, rfl, spin_forever _ _ _ rfl⟩

/-- C5 counterexample: with `arg_template` absent, the caller-supplied
arguments are NOT pushed as-is: the binder block is skipped entirely and
the operand stack starts empty. With one argument A and the program
[Return], the claim predicts A is returned; the code underflows the empty
stack instead. -/
theorem C5_counterexample :
    bindArgs none [.ref 0] = .bound []
  ∧ BindResult.bound ([] : List LispObject) ≠ .bound [.ref 0]
  ∧ exec_byte_code ext0 [0o207] [] 1 none [.ref 0] 10 = .fatal .stackUnderflow :=
  ⟨rfl, by decide, rfl⟩

/-- C5 amended: for every call of `exec_byte_code` in which `arg_template`
is absent (nil), no arity validation is performed and no arguments are
pushed: the argument slice is ignored and the operand stack starts empty. -/
theorem C5_template_absent_ignores_args :
    (∀ args, bindArgs none args = .bound [])
  ∧ (∀ ext bytestr vector maxdepth args fuel,
      exec_byte_code ext bytestr vector maxdepth none args fuel =
        exec ext ⟨bytestr, vector⟩ fuel ⟨[], 0, []⟩) :=
  ⟨fun _ => rfl, fun _ _ _ _ _ _ => rfl⟩

/-- On a stack whose top `n + 1` operands are, bottom to top,
`[pr, arg_1 .. arg_n]` (top-first: `args.reverse ++ pr :: rest` with
`args.length = n`), a Call of `n` arguments hands `funcall` the slice
`[pr, arg_1 .. arg_n]`, pops the `n + 1` operands and pushes the result. -/
theorem callStep_spec (ext : Externals) (pc adv n : Nat) (pr : LispObject)
    (args rest : List LispObject) (evs : List VMEvent) (hlen : args.length = n) :
    callStep ext ⟨args.reverse ++ pr :: rest, pc, evs⟩ n adv =
      .next ⟨ext.funcall (pr :: args) :: rest, pc + adv, evs⟩ := by
  have hassoc : args.reverse ++ pr :: rest = (args.reverse ++ [pr]) ++ rest := by simp
  have hlen2 : (args.reverse ++ [pr]).length = n + 1 := by simp [hlen]
  have hle : n + 1 ≤ (args.reverse ++ pr :: rest).length := by
    simp only [List.length_append, List.length_reverse, List.length_cons, hlen]
    omega
  simp only [callStep]
  rw [if_pos hle, hassoc, List.take_left' hlen2, List.drop_left' hlen2]
  simp

/-- C6: executing Call[N] on a stack of depth at least N + 1 whose top
N + 1 operands are, bottom to top, [procedure, arg_1 .. arg_N], applies
the external Apply capability (`funcall`) to the slice
[procedure, arg_1 .. arg_N], pops all N + 1 operands, and pushes the
single result, leaving the operands below unchanged (so the depth shrinks
by N). The three conjuncts cover the three encodings: inline Call..Call5,
Call6 with a one-byte operand, and Call7 with a two-byte little-endian
operand. -/
theorem C6_call_funcall (ext : Externals) (c : VMCode) (pc n : Nat)
    (pr : LispObject) (args rest : List LispObject) (evs : List VMEvent)
    (hlen : args.length = n) :
    (n ≤ 5 → c.bytecode.get? pc = some (0o40 + n) →
      step ext c ⟨args.reverse ++ pr :: rest, pc, evs⟩ =
        .next ⟨ext.funcall (pr :: args) :: rest, pc + 1, evs⟩)
  ∧ (c.bytecode.get? pc = some 0o46 → c.bytecode.get? (pc + 1) = some n →
      step ext c ⟨args.reverse ++ pr :: rest, pc, evs⟩ =
        .next ⟨ext.funcall (pr :: args) :: rest, pc + 2, evs⟩)
  ∧ (∀ lo hi, c.bytecode.get? pc = some 0o47 → c.bytecode.get? (pc + 1) = some lo →
      c.bytecode.get? (pc + 2) = some hi → n = lo + (hi <<< 8) →
      step ext c ⟨args.reverse ++ pr :: rest, pc, evs⟩ =
        .next ⟨ext.funcall (pr :: args) :: rest, pc + 3, evs⟩) := by
  refine ⟨?_, ?_, ?_⟩
  · intro hn hfetch
    interval_cases n
    · rw [step_known ext c _ (0o40 + 0) OpCodes.Call hfetch rfl]
      exact callStep_spec ext pc 1 _ pr args rest evs hlen
    · rw [step_known ext c _ (0o40 + 1) OpCodes.Call1 hfetch rfl]
      exact callStep_spec ext pc 1 _ pr args rest evs hlen
    · rw [step_known ext c _ (0o40 + 2) OpCodes.Call2 hfetch rfl]
      exact callStep_spec ext pc 1 _ pr args rest evs hlen
    · rw [step_known ext c _ (0o40 + 3) OpCodes.Call3 hfetch rfl]
      exact callStep_spec ext pc 1 _ pr args rest evs hlen
    · rw [step_known ext c _ (0o40 + 4) OpCodes.Call4 hfetch rfl]
      exact callStep_spec ext pc 1 _ pr args rest evs hlen
    · rw [step_known ext c _ (0o40 + 5) OpCodes.Call5 hfetch rfl]
      exact callStep_spec ext pc 1 _ pr args rest evs hlen
  · intro h1 h2
    rw [step_known ext c _ 0o46 OpCodes.Call6 h1 rfl]
    simp only [execInstr, h2]
    exact callStep_spec ext pc 2 n pr args rest evs hlen
  · intro lo hi h1 h2 h3 hval
    rw [step_known ext c _ 0o47 OpCodes.Call7 h1 rfl]
    simp only [execInstr, h2, h3]
    exact callStep_spec ext pc 3 _ pr args rest evs (hval ▸ hlen)

/-- C6 witness: Call2 (byte 0o42) on the concrete stack
[rest, procedure, arg1, arg2] (bottom to top). -/
theorem C6_call_funcall_witness :
    ([LispObject.ref 1, .ref 2] : List LispObject).length = 2
  ∧ (2 : Nat) ≤ 5
  ∧ step ext0 ⟨[0o42], []⟩ ⟨[.ref 2, .ref 1, .ref 0, .ref 3], 0, []⟩ =
      .next ⟨ext0.funcall [.ref 0, .ref 1, .ref 2] :: [.ref 3], 0 + 1, []⟩ :=
  ⟨rfl, by decide,
   (C6_call_funcall ext0 ⟨[0o42], []⟩ 0 2 (.ref 0) [.ref 1, .ref 2] [.ref 3] [] rfl).1
     (by decide) rfl⟩

/-- C7: gotoifnilelsepop examines the top operand without popping when the
branch is taken and pops it when falling through; dually for
gotoifnonnilelsepop. The last two conjuncts run the claim's concrete
program [Constant(0), Gotoifnilelsepop(5), Constant(1), Return]: with
constants[0] = nil the Return at the target returns constants[0] itself;
with constants[0] truthy it is popped and constants[1] is returned. -/
theorem C7_goto_else_pop (ext : Externals) (c : VMCode) (pc lo hi : Nat)
    (v : LispObject) (rest : List LispObject) (evs : List VMEvent) :
    (c.bytecode.get? pc = some 0o205 → c.bytecode.get? (pc + 1) = some lo →
      c.bytecode.get? (pc + 2) = some hi →
      step ext c ⟨v :: rest, pc, evs⟩ =
        if v.is_nil then .next ⟨v :: rest, lo + (hi <<< 8), evs⟩
        else .next ⟨rest, pc + 3, evs⟩)
  ∧ (c.bytecode.get? pc = some 0o206 → c.bytecode.get? (pc + 1) = some lo →
      c.bytecode.get? (pc + 2) = some hi →
      step ext c ⟨v :: rest, pc, evs⟩ =
        if v.is_not_nil then .next ⟨v :: rest, lo + (hi <<< 8), evs⟩
        else .next ⟨rest, pc + 3, evs⟩)
  ∧ exec ext0 ⟨[0o300, 0o205, 5, 0, 0o301, 0o207], [.nil, .ref 1]⟩ 10 ⟨[], 0, []⟩ =
      .ret .nil
  ∧ exec ext0 ⟨[0o300, 0o205, 5, 0, 0o301, 0o207], [.ref 9, .ref 1]⟩ 10 ⟨[], 0, []⟩ =
      .ret (.ref 1) := by
  refine ⟨?_, ?_, rfl, rfl⟩
  · intro h1 h2 h3
    rw [step_known ext c _ 0o205 OpCodes.Gotoifnilelsepop h1 rfl]
    simp only [execInstr, h2, h3]
  · intro h1 h2 h3
    rw [step_known ext c _ 0o206 OpCodes.Gotoifnonnilelsepop h1 rfl]
    simp only [execInstr, h2, h3]

/-- C7 witness: the branch-taken case at pc = 1 of the concrete program,
with nil on top: the branch is taken to pc 5 and nil is NOT popped. -/
theorem C7_goto_else_pop_witness :
    (⟨[0o300, 0o205, 5, 0, 0o301, 0o207], [LispObject.nil, .ref 1]⟩ : VMCode).bytecode.get? 1 =
      some 0o205
  ∧ step ext0 ⟨[0o300, 0o205, 5, 0, 0o301, 0o207], [.nil, .ref 1]⟩ ⟨[.nil], 1, []⟩ =
      .next ⟨[.nil], 5, []⟩ := by
  refine ⟨rfl, ?_⟩
  have h := (C7_goto_else_pop ext0 ⟨[0o300, 0o205, 5, 0, 0o301, 0o207], [.nil, .ref 1]⟩
    1 5 0 .nil [] []).1 rfl rfl rfl
  simpa using h

/-- C8 counterexample: with declared max_stack_depth = 0 the program
[Constant(0), Return] pushes one operand — so at the instruction boundary
after the first step the operand stack length 1 exceeds the declared bound
0 — and execution continues normally to return that constant; no fatal
error is raised. -/
theorem C8_counterexample :
    exec_byte_code ext0 [0o300, 0o207] [.ref 0] 0 none [] 10 = .ret (.ref 0)
  ∧ step ext0 ⟨[0o300, 0o207], [.ref 0]⟩ ⟨[], 0, []⟩ = .next ⟨[.ref 0], 1, []⟩
  ∧ ¬ ((⟨[.ref 0], 1, []⟩ : VMState).stack.length ≤ 0) :=
  ⟨rfl, rfl, by decide⟩

/-- C8 amended: the declared max_stack_depth is only a pre-allocation hint
(`Vec::with_capacity`); the interpreter never checks the operand-stack
depth against it, so executions are identical under every declared depth
and bytecode exceeding the bound executes normally. -/
theorem C8_maxdepth_has_no_effect :
    ∀ ext bytestr vector d d' tmpl args fuel,
      exec_byte_code ext bytestr vector d tmpl args fuel =
        exec_byte_code ext bytestr vector d' tmpl args fuel :=
  fun _ _ _ _ _ _ _ _ => rfl

/-- C9: Eq pops two operands and pushes the identity-equality result (Qt
when identical, Qnil otherwise); the program
[Constant(0), Constant(1), Eq, Return] over constants [X, X] returns the
truthy value Qt and over [X, Y] with distinct identities returns the falsy
value Qnil. -/
theorem C9_eq_identity :
    (∀ ext consts v1 v2 rest evs,
      step ext ⟨[0o75], consts⟩ ⟨v1 :: v2 :: rest, 0, evs⟩ =
        .next ⟨(if v1 = v2 then LispObject.t else .nil) :: rest, 1, evs⟩)
  ∧ exec ext0 ⟨[0o300, 0o301, 0o75, 0o207], [.ref 0, .ref 0]⟩ 10 ⟨[], 0, []⟩ = .ret .t
  ∧ exec ext0 ⟨[0o300, 0o301, 0o75, 0o207], [.ref 0, .ref 1]⟩ 10 ⟨[], 0, []⟩ = .ret .nil
  ∧ LispObject.t.is_not_nil = true
  ∧ LispObject.nil.is_nil = true := by
  refine ⟨?_, rfl, rfl, rfl, rfl⟩
  intro ext consts v1 v2 rest evs
  rw [step_known ext ⟨[0o75], consts⟩ ⟨v1 :: v2 :: rest, 0, evs⟩ 0o75 OpCodes.Eq rfl rfl]
  simp only [execInstr, LispObject.eq, boolToLisp]
  by_cases h : v1 = v2 <;> simp [h]

/-- C10: every opcode byte that decodes to a declared entry of the table
whose handler is the final wildcard arm (Not, Car, Cdr, Plus, Discard,
Stack_set, the base stack-ref opcode 0, and the rest of the unhandled
entries) makes the dispatch loop abort the invocation with a fatal error
reporting the opcode value, for every operand stack and constant vector;
the instruction is never executed and execution never continues past it. -/
theorem C10_wildcard_reports_opcode (oc : OpCodes) (h : wildcardOp oc = true)
    (ext : Externals) (consts stk : List LispObject) (evs : List VMEvent) :
    step ext ⟨[opcodeVal oc], consts⟩ ⟨stk, 0, evs⟩ =
      .fatal (.unimplemented (opcodeVal oc)) := by
  cases oc <;> first
    | rfl
    | exact absurd h (by decide)

/-- C10 witness: the Not opcode (byte 0o77) falls through to the wildcard
arm and panics reporting 0o77. -/
theorem C10_wildcard_reports_opcode_witness :
    wildcardOp OpCodes.Not = true
  ∧ step ext0 ⟨[0o77], []⟩ ⟨[], 0, []⟩ = .fatal (.unimplemented 0o77) :=
  ⟨rfl, C10_wildcard_reports_opcode OpCodes.Not rfl ext0 [] [] []⟩

end Remacs
